import Mathlib

/-!
Verification development for the Hi-C contact-matrix tile viewer
(`HiCHeatmapView` in `src/app.jsx` of the genomic visualizer).

The definitions below are a shallow embedding of the viewer's data model and
event handlers.  Numeric values are modelled as exact rationals (the JS code
works with IEEE doubles; all quantities exercised here — genomic coordinates,
tile indices, small pixel coordinates — are exactly representable, so the
rational model agrees with the source on every input used).  JS `null` is
modelled as `Option.none`.
-/

namespace HiC

/-- The fixed resolution ladder (base pairs per bin, indexed by zoom level
0–9), from the literal array that appears at `src/app.jsx` lines 205, 229,
290 and 366. -/
def resolutionLadder : List ℕ :=
  [10000, 20000, 40000, 80000, 160000, 320000, 640000, 1280000, 2560000, 5120000]

/-- Resolution for a zoom level.  The JS array subscript yields `undefined`
out of range; every caller indexes with a clamped level in `[0, 9]`, and the
default value is never reached in any theorem below. -/
def resolution (zoom : ℕ) : ℚ := (resolutionLadder.getD zoom 0 : ℕ)

/-- A tile address `{zoom, x, y}` (the `tileCoords` state,
`src/app.jsx` line 200). -/
structure TileAddress where
  zoom : ℕ
  x : ℕ
  y : ℕ
deriving DecidableEq, Repr

/-- A contact matrix: a 2-D container of scores, JS `null` as `none`
(`tileData.data` from the tile endpoint). -/
abbrev ContactMatrix := List (List (Option ℚ))

/-- A TAD interval `{start, end}` as returned by the TAD endpoint. -/
structure TAD where
  start : ℚ
  «end» : ℚ
deriving DecidableEq, Repr

/-- A compartment interval `{start, end, E1}` as returned by the
compartments endpoint. -/
structure Compartment where
  start : ℚ
  «end» : ℚ
  E1 : ℚ
deriving DecidableEq, Repr

/-- The viewer's load status.  The source assigns only the string values
`'idle'`, `'fetching'` and `'rendered'` to the `status` state variable; the
`error` constructor is part of the specified state space and is included so
that statements about it can be expressed. -/
inductive Status where
  | idle
  | fetching
  | rendered
  | error
deriving DecidableEq, Repr

/-- The React state of `HiCHeatmapView` that the fetch lifecycle touches
(`src/app.jsx` lines 194–200): `status`, the `error` message, the TAD and
compartment overlay collections, the stored matrix, and the tile address. -/
structure ViewState where
  status : Status
  errorMsg : Option String
  tads : Option (List TAD)
  compartments : Option (List Compartment)
  matrixData : Option ContactMatrix
  tileCoords : TileAddress
deriving DecidableEq, Repr

/-- Initial state (the `useState` initialisers at `src/app.jsx`
lines 194–200). -/
def initialState : ViewState :=
  { status := .idle
    errorMsg := none
    tads := none
    compartments := none
    matrixData := none
    tileCoords := ⟨0, 0, 0⟩ }

/-- The asynchronous events that drive the fetch lifecycle.  Each constructor
corresponds to one continuation in `src/app.jsx`:

* `tileAddressChange a` — `setTileCoords` ran with a new address and the
  `[tileCoords]` effect body executed (lines 245–250);
* `tileResolve req d` — the tile request issued for address `req` resolved
  and its `.then` handler ran (lines 252–255); `d = none` models a payload
  that parsed as JSON but carried no `data` field (`tileData.data` is
  `undefined`);
* `tileReject req` — the tile request for `req` rejected (network error or
  JSON parse failure) and the `.catch` handler ran (line 256);
* `tadsSuccess d` — the TAD request resolved with a data array and
  `setTads` ran (lines 217–221);
* `tadsFailure` — the TAD request rejected, or resolved with an
  `{error}` payload (which the handler turns into a thrown error), and the
  `.catch` handler ran (lines 222–225);
* `compartmentsSuccess d` / `compartmentsFailure` — the same for the
  compartments request (lines 234–242). -/
inductive Event where
  | tileAddressChange (a : TileAddress)
  | tileResolve (req : TileAddress) (d : Option ContactMatrix)
  | tileReject (req : TileAddress)
  | tadsSuccess (d : List TAD)
  | tadsFailure
  | compartmentsSuccess (d : List Compartment)
  | compartmentsFailure
deriving DecidableEq

/-- One event-handler execution, returning the new state together with the
list of tile requests issued during the handler.  Translated directly from
the handlers in `src/app.jsx`.  Note that the late-resolve handler
(lines 252–255) stores `tileData.data` unconditionally: it does not compare
the request's address `req` with the current `tileCoords`, which is why
`req` is ignored in the `tileResolve` branch. -/
def step (s : ViewState) (e : Event) : ViewState × List TileAddress :=
  match e with
  | .tileAddressChange a =>
      ({ s with
          tileCoords := a
          status := .fetching
          errorMsg := none
          tads := none
          compartments := none }, [a])
  | .tileResolve _ d =>
      ({ s with matrixData := d, status := .rendered }, [])
  | .tileReject _ =>
      ({ s with errorMsg := some "Could not connect to the backend server." }, [])
  | .tadsSuccess d =>
      ({ s with tads := some d }, [])
  | .tadsFailure =>
      ({ s with errorMsg := some "Failed to fetch TADs." }, [])
  | .compartmentsSuccess d =>
      ({ s with compartments := some d }, [])
  | .compartmentsFailure =>
      ({ s with errorMsg := some "Failed to fetch A/B compartments." }, [])

/-- Run a sequence of events from a state (the UI event queue is
single-threaded, so handler executions are totally ordered). -/
def runTrace (s : ViewState) (es : List Event) : ViewState :=
  es.foldl (fun s e => (step s e).1) s

/-! ### Integer logarithms

JS `Math.floor(Math.log2 k)` (the zoom handler) and the decimal exponent of
`Number.prototype.toExponential` (d3's formatter) are floors of real
logarithms.  They are embedded through a fuel-based integer logarithm that
evaluates by structural recursion; `intLogQ_eq_log` below proves it equal to
Mathlib's `Int.log`, which `Real.floor_logb_natCast` connects to the exact
real logarithm. -/

/-- Fuel-based `Nat.log`: `natLogF fuel b n` counts how often `n` can be
divided by `b` before dropping below `b`.  Any `fuel ≥ n` is enough. -/
def natLogF : ℕ → ℕ → ℕ → ℕ
  | 0, _, _ => 0
  | fuel + 1, b, n => if 2 ≤ b ∧ b ≤ n then natLogF fuel b (n / b) + 1 else 0

/-- Fuel-based `Nat.clog` (ceiling logarithm), mirrored from its defining
recurrence.  Any `fuel ≥ n` is enough. -/
def natClogF : ℕ → ℕ → ℕ → ℕ
  | 0, _, _ => 0
  | fuel + 1, b, n => if 2 ≤ b ∧ 2 ≤ n then natClogF fuel b ((n + b - 1) / b) + 1 else 0

/-- Floor of the base-`b` real logarithm of a rational, as an integer, in
the shape of Mathlib's `Int.log` but built on the fuel-based logs so that it
evaluates by kernel reduction. -/
def intLogQ (b : ℕ) (q : ℚ) : ℤ :=
  if 1 ≤ q then (natLogF ⌊q⌋₊ b ⌊q⌋₊ : ℤ) else -(natClogF ⌈q⁻¹⌉₊ b ⌈q⁻¹⌉₊ : ℤ)

/-! ### Zoom-level mapping (`src/app.jsx` lines 345–353) -/

/-- Translation of `Math.min(9, Math.max(0, Math.floor(Math.log2(k))))` from the d3 zoom
handler (line 348).  For a positive rational `k`, `Math.floor(Math.log2 k)`
is the integer log `intLogQ 2 k` (the theorem for claim C4 proves this equals
`⌊Real.logb 2 k⌋`); the outer clamp keeps the result in `[0, 9]`, so the
value is returned as a natural number. -/
def newZoomLevel (k : ℚ) : ℕ := (min 9 (max 0 (intLogQ 2 k))).toNat

/-- The tile-address update performed by the zoom handler (lines 349–351):
when the computed level differs from the stored one, `x` and `y` are reset
to 0; otherwise `tileCoords` is left unchanged. -/
def zoomHandlerTile (k : ℚ) (tc : TileAddress) : TileAddress :=
  if newZoomLevel k ≠ tc.zoom then ⟨newZoomLevel k, 0, 0⟩ else tc

/-! ### Color scale and cell painting (`src/app.jsx` lines 278–288) -/

/-- Translation of `matrixData.flat().filter(v => v > 0)`: the strictly positive entries of
the matrix in row-major order (JS `null > 0` is `false`, so `null` entries
are dropped by the filter). -/
def positiveValues (m : ContactMatrix) : List ℚ :=
  (m.flatten.filterMap id).filter (fun v => decide (0 < v))

/-- Translation of `d3.quantile(values, p)` from d3-array: with an empty input it returns
`undefined` (`none` here); with `p ≤ 0` or fewer than two values it returns
the minimum; with `p ≥ 1` the maximum; otherwise the R-7 interpolation
`a[i0] + (a[i0+1] - a[i0]) * (i - i0)` on the ascending sort `a`, where
`i = (n-1)·p` and `i0 = ⌊i⌋`. -/
def quantileD3 (values : List ℚ) (p : ℚ) : Option ℚ :=
  let n := values.length
  if n = 0 then none
  else if p ≤ 0 ∨ n < 2 then some (values.foldl min (values.headD 0))
  else if 1 ≤ p then some (values.foldl max (values.headD 0))
  else
    let sorted := values.insertionSort (· ≤ ·)
    let i : ℚ := ((n : ℚ) - 1) * p
    let i0 : ℕ := (⌊i⌋).toNat
    let v0 := sorted.getD i0 0
    let v1 := sorted.getD (i0 + 1) 0
    some (v0 + (v1 - v0) * (i - i0))

/-- The color-scale domain (line 278):
`[0, d3.quantile(matrixData.flat().filter(v => v > 0), 0.95) || 1]`.
JS `||` replaces a falsy left operand (`undefined` or `0`) by `1`. -/
def colorDomain (m : ContactMatrix) : ℚ × ℚ :=
  (0, match quantileD3 (positiveValues m) (95 / 100) with
      | none => 1
      | some v => if v = 0 then 1 else v)

/-- The cell-painting guard of the render loop (line 283):
`value !== null && value > 0`.  A cell failing the guard is skipped (left
unpainted). -/
def cellPainted (v : Option ℚ) : Bool :=
  match v with
  | none => false
  | some x => decide (0 < x)

/-! ### Number formatting

The source formats numbers with `d3.format(".2s")` (axis ticks, lines
315–316), `d3.format(".3s")` (TAD tooltip, line 379) and
`Number.prototype.toFixed(2)` (cell-score tooltip, line 394).  The
definitions below reproduce d3-format's `formatPrefixAuto` and the
ECMAScript `toFixed` on exact rationals. -/

/-- The SI prefixes used by d3-format's type `s`, indexed by
`8 + prefixExponent / 3`. -/
def siPrefixes : List String :=
  ["y", "z", "a", "f", "p", "n", "µ", "m", "", "k", "M", "G", "T", "P", "E", "Z", "Y"]

/-- A string of `n` zero characters. -/
def zeros (n : ℕ) : String := String.mk (List.replicate n '0')

/-- Translation of `formatDecimalParts(x, p)` from d3-format for a nonnegative `x` and
`p ≥ 1` significant digits: the digit string and decimal exponent of
`x.toExponential(p - 1)`.  ECMAScript `toExponential` rounds to the nearest
`p`-digit coefficient, ties picking the larger value; a carry past
`10^p - 1` bumps the exponent. -/
def toExponentialParts (p : ℕ) (x : ℚ) : String × ℤ :=
  if x = 0 then (zeros p, 0)
  else
    let e := intLogQ 10 x
    let n := ⌊x * (10 : ℚ) ^ ((p : ℤ) - 1 - e) + 1 / 2⌋
    if n = 10 ^ p then (Nat.repr (10 ^ (p - 1)), e + 1)
    else (Nat.repr n.toNat, e)

/-- Translation of `formatPrefixAuto(x, p)` from d3-format (type `s`), for nonnegative
`x`: round to `p` significant digits, choose the SI prefix from the clamped
exponent `max(-8, min(8, ⌊e/3⌋)) * 3`, and place the decimal point.  (The
`i ≤ 0` re-rounding branch of the library is reproduced below; for the
values the viewer formats — `0` or coordinates `≥ 1` — the decimal-point
index `i` is always `≥ 1` and that branch is dead.) -/
def formatPrefixAuto (p : ℕ) (x : ℚ) : String :=
  let parts := toExponentialParts p x
  let coeff := parts.1
  let e := parts.2
  let pe := max (-8) (min 8 (Int.fdiv e 3)) * 3
  let i : ℤ := e - pe + 1
  let n : ℤ := (coeff.length : ℤ)
  let body :=
    if i = n then coeff
    else if n < i then coeff ++ zeros (i - n).toNat
    else if 0 < i then coeff.take i.toNat ++ "." ++ coeff.drop i.toNat
    else "0." ++ zeros (-i).toNat ++ (toExponentialParts (max 1 (p + i - 1).toNat) x).1
  body ++ siPrefixes.getD (8 + Int.fdiv pe 3).toNat ""

/-- Translation of `d3.format(".Ns")(x)`: SI-prefixed formatting at `N` significant digits,
with a leading minus sign for negatives (the default sign convention). -/
def formatS (p : ℕ) (x : ℚ) : String :=
  if x < 0 then "-" ++ formatPrefixAuto p (-x) else formatPrefixAuto p x

/-- The axis tick format, `d3.format(".2s")` (`src/app.jsx` lines
315–316). -/
def axisTickFormat (x : ℚ) : String := formatS 2 x

/-- The TAD tooltip text (line 379):
``  `TAD: ${d3.format(".3s")(tad.start)} - ${d3.format(".3s")(tad.end)}`  ``. -/
def tadTooltipContent (tad : TAD) : String :=
  "TAD: " ++ formatS 3 tad.start ++ " - " ++ formatS 3 tad.«end»

/-- ECMAScript `Number.prototype.toFixed(2)`: extract the sign, round
`|x| * 100` to the nearest integer (ties away from zero), and print with two
decimal places. -/
def toFixed2 (x : ℚ) : String :=
  let sign := if x < 0 then "-" else ""
  let n := (⌊|x| * 100 + 1 / 2⌋).toNat
  sign ++ Nat.repr (n / 100) ++ "." ++ (if n % 100 < 10 then "0" else "") ++ Nat.repr (n % 100)

/-- The cell-score tooltip text (line 394):
``  `Score: ${value.toFixed(2)}`  ``. -/
def scoreTooltipContent (v : ℚ) : String := "Score: " ++ toFixed2 v

/-! ### View transform and hit-testing (`src/app.jsx` lines 357–401) -/

/-- A d3 zoom transform `{x, y, k}`. -/
structure ZoomTransform where
  x : ℚ
  y : ℚ
  k : ℚ
deriving DecidableEq, Repr

/-- Value of `d3.zoomIdentity`. -/
def zoomIdentity : ZoomTransform := ⟨0, 0, 1⟩

/-- Translation of `transform.invert([px, py])` from d3-zoom:
`[(px - x) / k, (py - y) / k]`. -/
def ZoomTransform.invert (t : ZoomTransform) (px py : ℚ) : ℚ × ℚ :=
  ((px - t.x) / t.k, (py - t.y) / t.k)

/-- The left edge `tadX_px` of a TAD's square, in tile-pixel space
(lines 297 and 372): `((tad.start - viewStart) / resolution) * pixelSize`. -/
def tadBoxX (tad : TAD) (viewStart res pixelSize : ℚ) : ℚ :=
  ((tad.start - viewStart) / res) * pixelSize

/-- The side `tadSize_px` of a TAD's square (lines 299 and 373):
`((tad.end - tad.start) / resolution) * pixelSize`. -/
def tadBoxSize (tad : TAD) (res pixelSize : ℚ) : ℚ :=
  ((tad.«end» - tad.start) / res) * pixelSize

/-- The containment test of the TAD hit-detection loop (lines 376–377):
both inverted coordinates within `[tadX_px, tadX_px + tadSize_px]` (the
square uses the same start and size on both axes). -/
def tadHitTest (inv : ℚ × ℚ) (viewStart res pixelSize : ℚ) (tad : TAD) : Bool :=
  let tx := tadBoxX tad viewStart res pixelSize
  let tsz := tadBoxSize tad res pixelSize
  decide (tx ≤ inv.1) && decide (inv.1 ≤ tx + tsz) &&
    decide (tx ≤ inv.2) && decide (inv.2 ≤ tx + tsz)

/-- The result of one `handleMouseMove` execution: `noUpdate` when the
handler returns before touching the tooltip (no matrix loaded), `show` for
`setTooltip({visible: true, content, ...})`, `hide` for
`setTooltip({visible: false})`. -/
inductive TooltipAction where
  | noUpdate
  | show (content : String)
  | hide
deriving DecidableEq, Repr

/-- Translation of `handleMouseMove` (`src/app.jsx` lines 357–401), as a function of the
captured state and the pointer position `(mouseX, mouseY)` relative to the
canvas.  `canvasWidth` is `canvas.width` (the raster surface size).  The
`for … return` loop over `tads` is the first-match search `List.find?`;
when `tads` is `null` the loop is skipped, which `(tads.getD []).find?`
reproduces (`find?` on `[]` is `none`). -/
def handleMouseMove (matrixData : Option ContactMatrix) (t : ZoomTransform)
    (tileZoom tileX : ℕ) (tads : Option (List TAD)) (canvasWidth mouseX mouseY : ℚ) :
    TooltipAction :=
  match matrixData with
  | none => .noUpdate
  | some m =>
    if m.length = 0 then .noUpdate
    else
      let inv := t.invert mouseX mouseY
      let numBins := m.length
      let pixelSize := canvasWidth / (numBins : ℚ)
      let res := resolution tileZoom
      let viewStart := (tileX : ℚ) * 256 * res
      match (tads.getD []).find? (tadHitTest inv viewStart res pixelSize) with
      | some tad => .show (tadTooltipContent tad)
      | none =>
        let i := ⌊inv.2 / pixelSize⌋
        let j := ⌊inv.1 / pixelSize⌋
        if 0 ≤ i ∧ i < (numBins : ℤ) ∧ 0 ≤ j ∧ j < (numBins : ℤ) then
          match (m.getD i.toNat []).getD j.toNat none with
          | some value => .show (scoreTooltipContent value)
          | none => .hide
        else .hide

/-! ### TAD stroke pass of the renderer (`src/app.jsx` lines 293–304) -/

/-- The TADs actually stroked by the render pass: the loop draws
`strokeRect` only under the guard `x >= 0 && (x + tadSize) <= size`
(line 300) and skips the TAD otherwise.  `size` is the raster surface side
and `numBins` the matrix side, giving `pixelSize = size / numBins`
(line 277). -/
def strokedTads (tads : List TAD) (tileZoom tileX : ℕ) (size : ℚ) (numBins : ℕ) :
    List TAD :=
  let res := resolution tileZoom
  let viewStart := (tileX : ℚ) * 256 * res
  let pixelSize := size / (numBins : ℚ)
  tads.filter (fun tad =>
    let x := tadBoxX tad viewStart res pixelSize
    let tadSize := tadBoxSize tad res pixelSize
    decide (0 ≤ x) && decide (x + tadSize ≤ size))

/-- Spec-side description of the cell-score fallback (spec section 4.5
step 3, with the hide condition as the code implements it): resolve the
pointer's bin indices `(row, col)` from the inverted tile-pixel coordinates,
report the matrix value at that cell, and hide the tooltip when the indices
are out of bounds or the value is `null`.  The theorem for claim C8 proves
the fallback path of `handleMouseMove` equal to this description. -/
def cellScoreFallbackSpec (m : ContactMatrix) (inv : ℚ × ℚ) (pixelSize : ℚ) :
    TooltipAction :=
  let row := ⌊inv.2 / pixelSize⌋
  let col := ⌊inv.1 / pixelSize⌋
  if 0 ≤ row ∧ row < (m.length : ℤ) ∧ 0 ≤ col ∧ col < (m.length : ℤ) then
    match (m.getD row.toNat []).getD col.toNat none with
    | some v => .show (scoreTooltipContent v)
    | none => .hide
  else .hide

/-! ## Supporting lemmas -/

lemma natLogF_eq_log : ∀ (fuel b n : ℕ), n ≤ fuel → natLogF fuel b n = Nat.log b n := by
  intro fuel
  induction fuel with
  | zero =>
    intro b n hn
    interval_cases n
    simp [natLogF]
  | succ fuel ih =>
    intro b n hn
    rw [natLogF]
    by_cases h : 2 ≤ b ∧ b ≤ n
    · rw [if_pos h, Nat.log_of_one_lt_of_le h.1 h.2, ih]
      have hn0 : 0 < n := lt_of_lt_of_le (by omega) h.2
      have := Nat.div_lt_self hn0 (show 1 < b by omega)
      omega
    · rw [if_neg h]
      rcases not_and_or.mp h with hb | hbn
      · exact (Nat.log_of_left_le_one (by omega) n).symm
      · exact (Nat.log_of_lt (by omega)).symm

lemma natClogF_eq_clog : ∀ (fuel b n : ℕ), n ≤ fuel → natClogF fuel b n = Nat.clog b n := by
  intro fuel
  induction fuel with
  | zero =>
    intro b n hn
    interval_cases n
    simp [natClogF]
  | succ fuel ih =>
    intro b n hn
    rw [natClogF]
    by_cases h : 2 ≤ b ∧ 2 ≤ n
    · rw [if_pos h, Nat.clog_of_two_le (by omega) h.2, ih]
      have := Nat.add_pred_div_lt (show 1 < b by omega) h.2
      omega
    · rw [if_neg h]
      rcases not_and_or.mp h with hb | hbn
      · exact (Nat.clog_of_left_le_one (by omega) n).symm
      · exact (Nat.clog_of_right_le_one (by omega) b).symm

lemma intLogQ_eq_log (b : ℕ) (q : ℚ) : intLogQ b q = Int.log b q := by
  unfold intLogQ
  by_cases h : 1 ≤ q
  · rw [if_pos h, Int.log_of_one_le_right _ h, natLogF_eq_log _ _ _ le_rfl]
  · rw [if_neg h, Int.log_of_right_le_one _ (lt_of_not_le h).le,
        natClogF_eq_clog _ _ _ le_rfl]

lemma intLog_ratCast_real (q : ℚ) : Int.log 2 ((q : ℝ)) = Int.log 2 q := by
  by_cases h : 1 ≤ q
  · rw [Int.log_of_one_le_right _ h,
        Int.log_of_one_le_right _ (show (1:ℝ) ≤ (q:ℝ) by exact_mod_cast h)]
    congr 1
    rw [← Int.floor_toNat, ← Int.floor_toNat, Rat.floor_cast]
  · have h1 : q ≤ 1 := (lt_of_not_le h).le
    rw [Int.log_of_right_le_one _ h1,
        Int.log_of_right_le_one _ (show (q:ℝ) ≤ 1 by exact_mod_cast h1)]
    congr 1
    rw [← Rat.cast_inv, ← Int.ceil_toNat, ← Int.ceil_toNat, Rat.ceil_cast]

lemma foldl_min_pos : ∀ (l : List ℚ) (a : ℚ), 0 < a → (∀ x ∈ l, 0 < x) →
    0 < l.foldl min a
  | [], _, ha, _ => ha
  | x :: l, a, ha, hl =>
    foldl_min_pos l (min a x) (lt_min ha (hl x (List.mem_cons_self x l)))
      (fun y hy => hl y (List.mem_cons_of_mem x hy))

lemma foldl_max_pos : ∀ (l : List ℚ) (a : ℚ), 0 < a → 0 < l.foldl max a
  | [], _, ha => ha
  | x :: l, a, ha => foldl_max_pos l (max a x) (lt_max_of_lt_left ha)

lemma headD_pos {values : List ℚ} (hne : values ≠ [])
    (hv : ∀ v ∈ values, 0 < v) : 0 < values.headD 0 := by
  cases values with
  | nil => exact absurd rfl hne
  | cons v vs => exact hv v (List.mem_cons_self v vs)

/-- Every value produced by `quantileD3` on a list of positive rationals is
positive: it is either a running minimum or maximum of the list, or a convex
interpolation between two consecutive elements of its ascending sort. -/
lemma quantileD3_pos {values : List ℚ} (hv : ∀ v ∈ values, 0 < v) {p q : ℚ}
    (hq : quantileD3 values p = some q) : 0 < q := by
  have hne : values ≠ [] := by
    intro h
    rw [h] at hq
    simp [quantileD3] at hq
  have hlen : values.length ≠ 0 := fun h => hne (List.length_eq_zero.mp h)
  rw [quantileD3] at hq
  simp only [if_neg hlen] at hq
  by_cases h1 : p ≤ 0 ∨ values.length < 2
  · rw [if_pos h1] at hq
    obtain rfl := (Option.some_inj.mp hq).symm
    exact foldl_min_pos _ _ (headD_pos hne hv) hv
  · rw [if_neg h1] at hq
    by_cases h2 : 1 ≤ p
    · rw [if_pos h2] at hq
      obtain rfl := (Option.some_inj.mp hq).symm
      exact foldl_max_pos _ _ (headD_pos hne hv)
    · rw [if_neg h2] at hq
      obtain rfl := (Option.some_inj.mp hq).symm
      set n := values.length with hn
      set i : ℚ := ((n : ℚ) - 1) * p with hi
      set i0 : ℕ := (⌊i⌋).toNat with hi0
      set sorted := values.insertionSort (· ≤ ·) with hsorted
      have hp0 : 0 < p := lt_of_not_le (fun h => h1 (Or.inl h))
      have hp1 : p < 1 := lt_of_not_le h2
      have hn2 : 2 ≤ n := le_of_not_lt (fun h => h1 (Or.inr h))
      have hipos : 0 ≤ i := by
        have : (1 : ℚ) ≤ (n : ℚ) - 1 := by
          have : (2 : ℚ) ≤ (n : ℚ) := by exact_mod_cast hn2
          linarith
        positivity
      have hfl0 : 0 ≤ ⌊i⌋ := Int.floor_nonneg.mpr hipos
      have hcast : ((i0 : ℤ) : ℚ) = ((⌊i⌋ : ℤ) : ℚ) := by
        rw [hi0, Int.toNat_of_nonneg hfl0]
      have hle : (i0 : ℚ) ≤ i := by
        rw [show ((i0 : ℕ) : ℚ) = ((i0 : ℤ) : ℚ) by push_cast; ring, hcast]
        exact Int.floor_le i
      have hilt : i < (n : ℚ) - 1 := by
        calc i = ((n : ℚ) - 1) * p := hi
        _ < ((n : ℚ) - 1) * 1 := by
          apply mul_lt_mul_of_pos_left hp1
          have : (2 : ℚ) ≤ (n : ℚ) := by exact_mod_cast hn2
          linarith
        _ = (n : ℚ) - 1 := mul_one _
      have hlen' : sorted.length = n := List.length_insertionSort _ _
      have hi0lt : i0 + 1 < sorted.length := by
        rw [hlen']
        have : (⌊i⌋ : ℚ) < (n : ℚ) - 1 := lt_of_le_of_lt (Int.floor_le i) hilt
        have hzi : ⌊i⌋ < (n : ℤ) - 1 := by exact_mod_cast this
        omega
      have hi0lt' : i0 < sorted.length := by omega
      have hv0 : sorted.getD i0 0 = sorted.get ⟨i0, hi0lt'⟩ := by
        rw [List.getD_eq_getElem?_getD, List.getElem?_eq_getElem hi0lt']
        rfl
      have hv1 : sorted.getD (i0 + 1) 0 = sorted.get ⟨i0 + 1, hi0lt⟩ := by
        rw [List.getD_eq_getElem?_getD, List.getElem?_eq_getElem hi0lt]
        rfl
      have hmem0 : sorted.get ⟨i0, hi0lt'⟩ ∈ values :=
        (List.mem_insertionSort _).mp (sorted.get_mem i0 hi0lt')
      have hpos0 : 0 < sorted.get ⟨i0, hi0lt'⟩ := hv _ hmem0
      have hsortedS : sorted.Sorted (· ≤ ·) := List.sorted_insertionSort _ _
      have hord : sorted.get ⟨i0, hi0lt'⟩ ≤ sorted.get ⟨i0 + 1, hi0lt⟩ :=
        hsortedS.rel_get_of_lt (by simp [Fin.lt_def])
      rw [hv0, hv1]
      have hnn : 0 ≤ (sorted.get ⟨i0 + 1, hi0lt⟩ - sorted.get ⟨i0, hi0lt'⟩) * (i - (i0 : ℚ)) :=
        mul_nonneg (by linarith) (by linarith)
      linarith

lemma quantileD3_isSome {values : List ℚ} (hne : values ≠ []) (p : ℚ) :
    ∃ q, quantileD3 values p = some q := by
  have hlen : values.length ≠ 0 := fun h => hne (List.length_eq_zero.mp h)
  rw [quantileD3]
  simp only [if_neg hlen]
  by_cases h1 : p ≤ 0 ∨ values.length < 2
  · exact ⟨_, by rw [if_pos h1]⟩
  · rw [if_neg h1]
    by_cases h2 : 1 ≤ p
    · exact ⟨_, by rw [if_pos h2]⟩
    · exact ⟨_, by rw [if_neg h2]⟩

lemma positiveValues_pos (m : ContactMatrix) : ∀ v ∈ positiveValues m, 0 < v := by
  intro v hv
  have := List.mem_filter.mp hv
  exact of_decide_eq_true this.2

/-! ## The claims -/

/-- Claim C1 (code_bug): the spec requires that when the TileAddress changes
from `A` to `B` while the fetch for `A` is outstanding, the late result for
`A` is discarded.  The code has no such guard: in the trace below the address
changes from `A = (0,0,0)` to `B = (1,0,0)` and then `A`'s late response
arrives; the handler stores `A`'s matrix while `tileCoords` is still `B`,
and marks the view `rendered`. -/
theorem stale_tile_response_last_write_wins :
    (runTrace initialState
      [.tileAddressChange ⟨0, 0, 0⟩,
       .tileAddressChange ⟨1, 0, 0⟩,
       .tileResolve ⟨0, 0, 0⟩ (some [[some 5]])]).tileCoords = ⟨1, 0, 0⟩ ∧
    (runTrace initialState
      [.tileAddressChange ⟨0, 0, 0⟩,
       .tileAddressChange ⟨1, 0, 0⟩,
       .tileResolve ⟨0, 0, 0⟩ (some [[some 5]])]).matrixData = some [[some 5]] ∧
    (runTrace initialState
      [.tileAddressChange ⟨0, 0, 0⟩,
       .tileAddressChange ⟨1, 0, 0⟩,
       .tileResolve ⟨0, 0, 0⟩ (some [[some 5]])]).status = .rendered :=
  ⟨rfl, rfl, rfl⟩

/-- Claim C2, counterexample: after a failed tile fetch the status is still
`fetching`, not `error` (the code only sets the error message; the `status`
state variable never takes the value `error`). -/
theorem tile_fetch_failure_leaves_status_fetching :
    (runTrace initialState [.tileAddressChange ⟨0, 0, 0⟩, .tileReject ⟨0, 0, 0⟩]).status
        = .fetching ∧
    (runTrace initialState [.tileAddressChange ⟨0, 0, 0⟩, .tileReject ⟨0, 0, 0⟩]).status
        ≠ .error ∧
    (runTrace initialState [.tileAddressChange ⟨0, 0, 0⟩, .tileReject ⟨0, 0, 0⟩]).errorMsg
        = some "Could not connect to the backend server." := by
  refine ⟨rfl, ?_, rfl⟩
  decide

/-- Claim C2 (amended): on a rejected tile fetch (network error or JSON
parse failure) the error message is set while both the status and the stored
matrix are left unchanged — in particular the status never transitions to
`error`; and a payload that parses but has no `data` field stores `none` as
the matrix and still sets the status to `rendered`. -/
theorem tile_fetch_failure_behavior (s : ViewState) (req : TileAddress) :
    (step s (.tileReject req)).1.errorMsg = some "Could not connect to the backend server." ∧
    (step s (.tileReject req)).1.status = s.status ∧
    (step s (.tileReject req)).1.matrixData = s.matrixData ∧
    (step s (.tileResolve req none)).1.matrixData = none ∧
    (step s (.tileResolve req none)).1.status = .rendered :=
  ⟨rfl, rfl, rfl, rfl, rfl⟩

/-- Claim C3, counterexample: after a successful TAD fetch followed by a
failed one, the TAD overlay collection still holds the old TADs — the
failure handler sets the error message but does not clear the collection. -/
theorem annotation_fetch_failure_overlay_not_cleared :
    (runTrace initialState
      [.tileAddressChange ⟨0, 0, 0⟩, .tileResolve ⟨0, 0, 0⟩ (some [[some 1]]),
       .tadsSuccess [⟨0, 20000⟩], .tadsFailure]).tads = some [⟨0, 20000⟩] ∧
    (runTrace initialState
      [.tileAddressChange ⟨0, 0, 0⟩, .tileResolve ⟨0, 0, 0⟩ (some [[some 1]]),
       .tadsSuccess [⟨0, 20000⟩], .tadsFailure]).tads ≠ none ∧
    (runTrace initialState
      [.tileAddressChange ⟨0, 0, 0⟩, .tileResolve ⟨0, 0, 0⟩ (some [[some 1]]),
       .tadsSuccess [⟨0, 20000⟩], .tadsFailure]).errorMsg = some "Failed to fetch TADs." := by
  refine ⟨rfl, ?_, rfl⟩
  decide!

/-- Claim C3 (amended): a failed annotation fetch (TADs or compartments)
sets the corresponding user-visible error message and leaves the overlay
collection exactly as it was — the collection is not cleared. -/
theorem annotation_fetch_failure_behavior (s : ViewState) :
    (step s .tadsFailure).1.tads = s.tads ∧
    (step s .tadsFailure).1.errorMsg = some "Failed to fetch TADs." ∧
    (step s .compartmentsFailure).1.compartments = s.compartments ∧
    (step s .compartmentsFailure).1.errorMsg = some "Failed to fetch A/B compartments." :=
  ⟨rfl, rfl, rfl, rfl⟩

/-- Claim C4: for every scale factor `k` in `[1, 64]` the discrete zoom
level computed by the zoom handler equals
`clamp(⌊log2 k⌋, 0, 9)` with the floor of the exact real base-2 logarithm;
`k = 1` maps to level 0 and `k = 8` to level 3; and whenever the computed
level differs from the stored one the handler resets the tile coordinates
to `(x, y) = (0, 0)`. -/
theorem zoom_level_mapping_and_reset :
    (∀ k : ℚ, 1 ≤ k → k ≤ 64 →
        (newZoomLevel k : ℤ) = min 9 (max 0 ⌊Real.logb 2 (k : ℝ)⌋)) ∧
    newZoomLevel 1 = 0 ∧ newZoomLevel 8 = 3 ∧
    (∀ (k : ℚ) (tc : TileAddress), newZoomLevel k ≠ tc.zoom →
        zoomHandlerTile k tc = ⟨newZoomLevel k, 0, 0⟩) := by
  refine ⟨?_, by decide!, by decide!, ?_⟩
  · intro k hk1 _
    have h0 : (0:ℝ) ≤ (k:ℝ) := by positivity
    have h2 : (2 : ℝ) = ((2 : ℕ) : ℝ) := by norm_num
    rw [h2, Real.floor_logb_natCast h0, intLog_ratCast_real k, newZoomLevel,
        ← intLogQ_eq_log]
    have : (0:ℤ) ≤ min 9 (max 0 (intLogQ 2 k)) :=
      le_min (by norm_num) (le_max_left 0 _)
    omega
  · intro k tc h
    rw [zoomHandlerTile, if_pos h]

/-- Witness for claim C4 at the concrete scale factor `k = 8` and stored
address `(0, 0, 0)`: the computed level is `3 = clamp(⌊log2 8⌋, 0, 9)` and
the handler resets the address to `(3, 0, 0)`. -/
theorem zoom_level_mapping_and_reset_witness :
    (newZoomLevel 8 : ℤ) = min 9 (max 0 ⌊Real.logb 2 ((8:ℚ) : ℝ)⌋) ∧
    zoomHandlerTile 8 ⟨0, 0, 0⟩ = ⟨3, 0, 0⟩ := by
  constructor
  · exact zoom_level_mapping_and_reset.1 8 (by norm_num) (by norm_num)
  · exact (zoom_level_mapping_and_reset.2.2.2 8 ⟨0, 0, 0⟩ (by decide!)).trans (by decide!)

/-- Claim C5: the handler run on every TileAddress change sets the status to
`fetching`, clears both the TAD and the compartment overlay collections, and
issues exactly one tile request, addressed to the new address. -/
theorem tile_address_change_protocol (s : ViewState) (a : TileAddress) :
    (step s (.tileAddressChange a)).1.status = .fetching ∧
    (step s (.tileAddressChange a)).1.tads = none ∧
    (step s (.tileAddressChange a)).1.compartments = none ∧
    (step s (.tileAddressChange a)).1.tileCoords = a ∧
    (step s (.tileAddressChange a)).2 = [a] :=
  ⟨rfl, rfl, rfl, rfl, rfl⟩

/-- Claim C6: the color-scale domain is `[0, u]` where `u` is the d3
95th percentile of the strictly positive matrix values when any exist and
`1` otherwise; the matrix `[0,0,5,10,20,100]` yields exactly the percentile
of `[5,10,20,100]` (namely 88); an all-zero matrix yields domain `[0,1]`;
and a cell is painted exactly when its value is neither `null` nor `≤ 0`. -/
theorem color_scale_domain :
    (∀ m : ContactMatrix, (colorDomain m).1 = 0) ∧
    (∀ m : ContactMatrix, positiveValues m ≠ [] →
        (colorDomain m).2 = (quantileD3 (positiveValues m) (95 / 100)).getD 1) ∧
    (∀ m : ContactMatrix, positiveValues m = [] → (colorDomain m).2 = 1) ∧
    positiveValues [[some 0, some 0, some 5, some 10, some 20, some 100]] = [5, 10, 20, 100] ∧
    (colorDomain [[some 0, some 0, some 5, some 10, some 20, some 100]]).2
        = (quantileD3 [5, 10, 20, 100] (95 / 100)).getD 1 ∧
    quantileD3 [5, 10, 20, 100] (95 / 100) = some 88 ∧
    colorDomain [[some 0, some 0], [some 0, some 0]] = (0, 1) ∧
    (∀ v : Option ℚ, cellPainted v = true ↔ ∃ x, v = some x ∧ 0 < x) := by
  refine ⟨fun m => rfl, ?_, ?_, by decide!, by decide!, by decide!, by decide!, ?_⟩
  · intro m hne
    obtain ⟨q, hq⟩ := quantileD3_isSome hne (95 / 100)
    have hpos := quantileD3_pos (positiveValues_pos m) hq
    rw [colorDomain, hq]
    simp [ne_of_gt hpos]
  · intro m hempty
    rw [colorDomain, hempty]
    rfl
  · intro v
    cases v with
    | none => simp [cellPainted]
    | some x => simp [cellPainted]

/-- Witness for claim C6: the general percentile equation applied to the
concrete one-cell matrix `[[3]]`, whose positive values are `[3]`. -/
theorem color_scale_domain_witness :
    (colorDomain [[some 3]]).2 = (quantileD3 (positiveValues [[some 3]]) (95 / 100)).getD 1 :=
  color_scale_domain.2.1 [[some 3]] (by decide!)

/-- Claim C7: whenever the pointer's inverted tile-pixel coordinates lie
inside at least one loaded TAD's square — expressed as the first-match
search returning some TAD `tad` — the hit-tester reports that TAD's tooltip,
regardless of the matrix contents, so never a cell score. -/
theorem tad_hit_precedence (m : ContactMatrix) (hm : m.length ≠ 0)
    (t : ZoomTransform) (z x : ℕ) (ts : List TAD) (cw mx my : ℚ) (tad : TAD)
    (hfind : ts.find? (tadHitTest (t.invert mx my) ((x : ℚ) * 256 * resolution z)
        (resolution z) (cw / (m.length : ℚ))) = some tad) :
    handleMouseMove (some m) t z x (some ts) cw mx my = .show (tadTooltipContent tad) := by
  simp only [handleMouseMove, if_neg hm, Option.getD_some]
  rw [hfind]

/-- Witness for claim C7, the spec's end-to-end example: a 4×4 matrix with a
zero at cell `(1,1)`, the TAD `[0, 20000]` at zoom 0, and the pointer at
tile-pixel `(1, 1)` — inside both the TAD square and the data cell — reports
the TAD tooltip, not the score. -/
theorem tad_hit_precedence_witness :
    handleMouseMove
        (some [[some 0, some 5, some 0, some 0], [some 5, some 0, some 3, some 0],
               [some 0, some 3, some 0, some 8], [some 0, some 0, some 8, some 0]])
        zoomIdentity 0 0 (some [⟨0, 20000⟩]) 4 1 1
      = .show (tadTooltipContent ⟨0, 20000⟩) :=
  tad_hit_precedence _ (by decide!) zoomIdentity 0 0 [⟨0, 20000⟩] 4 1 1 ⟨0, 20000⟩ (by decide!)

/-- Claim C8, counterexample: at a cell whose value is `0` — "no data" per
the external interface — the hit-tester shows `Score: 0.00` instead of
hiding the tooltip, as the claim would require. -/
theorem zero_value_cell_reports_score :
    handleMouseMove (some [[some 0]]) zoomIdentity 0 0 none 10 5 5 = .show "Score: 0.00" ∧
    handleMouseMove (some [[some 0]]) zoomIdentity 0 0 none 10 5 5 ≠ .hide := by
  constructor <;> decide!

/-- Claim C8 (amended): when no TAD matches, the hit-tester equals the
spec-side fallback description — it resolves the bin indices from the
inverted tile-pixel coordinates and reports the matrix value at that cell,
hiding the tooltip only when the indices are out of bounds or the value is
`null`; a zero-valued cell reports `Score: 0.00`. -/
theorem cell_score_fallback (m : ContactMatrix) (hm : m.length ≠ 0)
    (t : ZoomTransform) (z x : ℕ) (tads : Option (List TAD)) (cw mx my : ℚ)
    (hnotad : (tads.getD []).find? (tadHitTest (t.invert mx my)
        ((x : ℚ) * 256 * resolution z) (resolution z) (cw / (m.length : ℚ))) = none) :
    handleMouseMove (some m) t z x tads cw mx my =
      cellScoreFallbackSpec m (t.invert mx my) (cw / (m.length : ℚ)) := by
  simp only [handleMouseMove, if_neg hm]
  rw [hnotad]
  rfl

/-- Witness for claim C8 at a concrete input: a 1×1 matrix holding `2`, no
TADs, pointer at the cell's interior; the fallback shows `Score: 2.00`. -/
theorem cell_score_fallback_witness :
    handleMouseMove (some [[some 2]]) zoomIdentity 0 0 none 10 5 5
      = cellScoreFallbackSpec [[some 2]] (zoomIdentity.invert 5 5) (10 / (1 : ℚ)) ∧
    handleMouseMove (some [[some 2]]) zoomIdentity 0 0 none 10 5 5 = .show "Score: 2.00" := by
  constructor
  · exact cell_score_fallback [[some 2]] (by decide!) zoomIdentity 0 0 none 10 5 5 (by decide!)
  · decide!

/-- Claim C9, counterexample: the TAD tooltip for `[0, 20000]` is
`TAD: 0.00 - 20.0k` (three significant digits, spaces around the dash),
which differs from the string built with the axis tick format
(two significant digits) under either dash convention; in particular
`d3.format(".3s")` and `d3.format(".2s")` disagree on `20000`. -/
theorem tad_tooltip_not_axis_format :
    tadTooltipContent ⟨0, 20000⟩ = "TAD: 0.00 - 20.0k" ∧
    axisTickFormat 0 = "0.0" ∧ axisTickFormat 20000 = "20k" ∧
    tadTooltipContent ⟨0, 20000⟩
        ≠ "TAD: " ++ axisTickFormat 0 ++ "-" ++ axisTickFormat 20000 ∧
    tadTooltipContent ⟨0, 20000⟩
        ≠ "TAD: " ++ axisTickFormat 0 ++ " - " ++ axisTickFormat 20000 ∧
    formatS 3 20000 ≠ formatS 2 20000 := by
  refine ⟨by decide!, by decide!, by decide!, by decide!, by decide!, by decide!⟩

/-- Claim C9 (amended): every TAD tooltip has the form
`TAD: <start> - <end>` with both endpoints in d3's SI-suffixed format at
three significant digits (`.3s`), while the axis labels use the same SI
family at two significant digits (`.2s`); the two formats differ in
precision, as the concrete values show. -/
theorem tad_tooltip_si_formats :
    (∀ tad : TAD, tadTooltipContent tad
        = "TAD: " ++ formatS 3 tad.start ++ " - " ++ formatS 3 tad.«end») ∧
    (∀ v : ℚ, axisTickFormat v = formatS 2 v) ∧
    formatS 3 0 = "0.00" ∧ formatS 3 20000 = "20.0k" ∧
    formatS 2 0 = "0.0" ∧ formatS 2 20000 = "20k" :=
  ⟨fun _ => rfl, fun _ => rfl, by decide!, by decide!, by decide!, by decide!⟩

/-- Claim C10: a TAD is stroked by the render pass exactly when its square
lies entirely within the raster surface (`0 ≤ x` and `x + size ≤ surface`),
so a TAD extending past either edge is skipped rather than clipped; the
hit-tester applies no such restriction, and at the concrete input below it
matches a TAD whose square starts left of the surface and was therefore
never drawn. -/
theorem tad_stroke_clipping :
    (∀ (tads : List TAD) (z x : ℕ) (size : ℚ) (nb : ℕ) (tad : TAD),
        tad ∈ strokedTads tads z x size nb ↔
          tad ∈ tads ∧
          0 ≤ tadBoxX tad ((x : ℚ) * 256 * resolution z) (resolution z) (size / (nb : ℚ)) ∧
          tadBoxX tad ((x : ℚ) * 256 * resolution z) (resolution z) (size / (nb : ℚ)) +
              tadBoxSize tad (resolution z) (size / (nb : ℚ)) ≤ size) ∧
    strokedTads [⟨2500000, 2600000⟩] 0 1 4 1 = [] ∧
    handleMouseMove (some [[some 1]]) zoomIdentity 0 1 (some [⟨2500000, 2600000⟩]) 4 1 1
        = .show (tadTooltipContent ⟨2500000, 2600000⟩) := by
  refine ⟨?_, by decide!, by decide!⟩
  intro tads z x size nb tad
  simp only [strokedTads, List.mem_filter, Bool.and_eq_true, decide_eq_true_eq]

/-- Witness for claim C10: the stroke characterization applied at a concrete
in-view TAD, which is stroked because its square fits the surface. -/
theorem tad_stroke_clipping_witness :
    (⟨0, 20000⟩ : TAD) ∈ strokedTads [⟨0, 20000⟩] 0 0 4 4 :=
  (tad_stroke_clipping.1 [⟨0, 20000⟩] 0 0 4 4 ⟨0, 20000⟩).mpr
    ⟨List.mem_cons_self _ _, by decide!, by decide!⟩

end HiC
